import Mathlib

/-!
Verification of the Solem BLE toolkit's connection-and-write core
(`custom_components/solem_toolkit/api.py`) against its specification.

The development shallowly embeds the Python source:

* `struct.pack` with formats `>HBBBH`, `>HBBBBH`, `>BB` becomes `packFmt`
  over big-endian fields; a field value outside its range yields `none`
  (Python raises `struct.error` there).
* The seven command builders (`turn_on`, `turn_off_permanent`,
  `turn_off_x_days`, `sprinkle_station_x_for_y_minutes`,
  `sprinkle_all_stations_for_y_minutes`, `run_program_x`,
  `stop_manual_sprinkle`) become pure functions from the integer
  parameters (Python ints, hence `ℤ`) to the packed frame.
* The effectful methods (`_resolve_ble_device`, `_connect_client`,
  `_write_with_auth_retry`, `_write_and_commit`, `list_characteristics`)
  become deterministic functions of an explicit environment that scripts
  what the external BLE stack would do (scan results, per-try connect
  outcomes, per-attempt write outcomes, whether disconnect raises), each
  returning its Python result (`Except` for raised exceptions) together
  with the trace of externally visible events.
* The `asyncio.Lock` serializing `_connect_client` becomes a small
  interleaving transition system over two concurrent callers.
-/

namespace Solem

/-! ## Command encoder: `struct.pack` and the seven command builders -/

/-- Field letters of the `struct` formats the source uses: `B` (unsigned
byte) and `H` (unsigned 16-bit), always big-endian (`>`). -/
inductive Fmt where
  | B
  | H
deriving DecidableEq, Repr

/-- One field of `struct.pack`: the bytes of the value in the field's
big-endian encoding, or `none` when the value is out of the field's range
(Python raises `struct.error`). -/
def packField : Fmt → ℤ → Option (List ℕ)
  | Fmt.B, n => if 0 ≤ n ∧ n ≤ 255 then some [n.toNat] else none
  | Fmt.H, n => if 0 ≤ n ∧ n ≤ 65535 then some [n.toNat / 256, n.toNat % 256] else none

/-- `struct.pack` over a whole format string: concatenation of the fields,
failing (`none`) as soon as one field's value is out of range. -/
def packFmt : List (Fmt × ℤ) → Option (List ℕ)
  | [] => some []
  | (f, n) :: rest =>
    match packField f n, packFmt rest with
    | some b, some bs => some (b ++ bs)
    | _, _ => none

/-- Frame built by `SolemAPI.turn_on`:
`struct.pack(">HBBBH", 0x3105, 0x12, 0xFF, 0x00, 0xFFFF)`. -/
def turn_on_command : Option (List ℕ) :=
  packFmt [(Fmt.H, 0x3105), (Fmt.B, 0x12), (Fmt.B, 0xFF), (Fmt.B, 0x00), (Fmt.H, 0xFFFF)]

/-- Frame built by `SolemAPI.turn_off_permanent`:
`struct.pack(">HBBBH", 0x3105, 0xC0, 0x00, 0x00, 0x0000)`. -/
def turn_off_permanent_command : Option (List ℕ) :=
  packFmt [(Fmt.H, 0x3105), (Fmt.B, 0xC0), (Fmt.B, 0x00), (Fmt.B, 0x00), (Fmt.H, 0x0000)]

/-- Frame built by `SolemAPI.turn_off_x_days`: the day count is first
clamped by `days = max(0, min(days, 365))`, then
`struct.pack(">HBBBH", 0x3105, 0x15, 0x00, days, 0xFFFF)`. -/
def turn_off_x_days_command (days : ℤ) : Option (List ℕ) :=
  let days := max 0 (min days 365)
  packFmt [(Fmt.H, 0x3105), (Fmt.B, 0x15), (Fmt.B, 0x00), (Fmt.B, days), (Fmt.H, 0xFFFF)]

/-- Frame built by `SolemAPI.sprinkle_station_x_for_y_minutes`: station is
clamped to `[1,16]`, minutes to `[1,240]`, then
`struct.pack(">HBBBBH", 0x3105, 0x22, station, 0x00, minutes, 0xFFFF)`. -/
def sprinkle_station_x_for_y_minutes_command (station minutes : ℤ) : Option (List ℕ) :=
  let station := max 1 (min station 16)
  let minutes := max 1 (min minutes 240)
  packFmt [(Fmt.H, 0x3105), (Fmt.B, 0x22), (Fmt.B, station), (Fmt.B, 0x00),
    (Fmt.B, minutes), (Fmt.H, 0xFFFF)]

/-- Frame built by `SolemAPI.sprinkle_all_stations_for_y_minutes`: minutes
clamped to `[1,240]`, then
`struct.pack(">HBBBH", 0x3105, 0x23, 0x00, minutes, 0xFFFF)`. -/
def sprinkle_all_stations_for_y_minutes_command (minutes : ℤ) : Option (List ℕ) :=
  let minutes := max 1 (min minutes 240)
  packFmt [(Fmt.H, 0x3105), (Fmt.B, 0x23), (Fmt.B, 0x00), (Fmt.B, minutes), (Fmt.H, 0xFFFF)]

/-- Frame built by `SolemAPI.run_program_x`: program clamped to `[1,3]`,
then `struct.pack(">HBBBH", 0x3105, 0x21, program, 0x00, 0xFFFF)`. -/
def run_program_x_command (program : ℤ) : Option (List ℕ) :=
  let program := max 1 (min program 3)
  packFmt [(Fmt.H, 0x3105), (Fmt.B, 0x21), (Fmt.B, program), (Fmt.B, 0x00), (Fmt.H, 0xFFFF)]

/-- Frame built by `SolemAPI.stop_manual_sprinkle`:
`struct.pack(">HBBBH", 0x3105, 0x24, 0x00, 0x00, 0xFFFF)`. -/
def stop_manual_sprinkle_command : Option (List ℕ) :=
  packFmt [(Fmt.H, 0x3105), (Fmt.B, 0x24), (Fmt.B, 0x00), (Fmt.B, 0x00), (Fmt.H, 0xFFFF)]

/-- Commit frame built inside `SolemAPI._write_and_commit`:
`struct.pack(">BB", 0x3B, 0x00)`. -/
def commitFrame : List ℕ :=
  (packFmt [(Fmt.B, 0x3B), (Fmt.B, 0x00)]).getD []

/-! ## Effectful core: devices, errors, events and scripted environments

The BLE stack is external; each of its operations is scripted by an
explicit environment field, and every embedded method returns its Python
result together with the ordered trace of externally visible events. -/

/-- A `bleak` `BLEDevice` as the resolver sees it: only the address matters
to the source (`d.address`, possibly absent — the code guards with
`d.address or ""`). -/
structure BLEDeviceM where
  address : Option String
deriving DecidableEq, Repr

/-- Python exceptions that cross the embedded methods' boundaries.
`apiConnectionError` is the source's `APIConnectionError`;
`bleakWriteError`/`bleakDisconnectError` stand for raw transport errors
raised by `write_gatt_char`/`disconnect`; `retryError` is `tenacity`'s
`RetryError`, raised (with the last attempt's exception inside) when the
`@retry(stop=stop_after_attempt(3), ...)` budget is exhausted. -/
inductive PyErr where
  | apiConnectionError (msg : String)
  | bleakWriteError
  | bleakDisconnectError
  | retryError (last : PyErr)
deriving DecidableEq, Repr

/-- Externally visible events, in order of occurrence: the direct
`find_device_by_address` lookup, the fallback `discover` scan, the n-th
internal try of `establish_connection`, the start of one `tenacity`
attempt of `_write_with_auth_retry`, a `write_gatt_char` call (payload and
whether it succeeded), and a `disconnect` call. -/
inductive Ev where
  | findCall
  | scanCall
  | connectTry (n : ℕ)
  | authAttempt
  | gattWrite (payload : List ℕ) (ok : Bool)
  | disconnectTry
deriving DecidableEq, Repr

/-- Outcome the transport gives one `_write_with_auth_retry` attempt: the
handle reports not connected (the attempt raises `APIConnectionError`
before any GATT write), the GATT write raises, or the write succeeds. -/
inductive AttemptOutcome where
  | notConnected
  | writeFails
  | writeOk
deriving DecidableEq, Repr

/-- Scripted outcomes of the up to three `tenacity` attempts of one
`_write_with_auth_retry` call. -/
structure WriteScript where
  a0 : AttemptOutcome
  a1 : AttemptOutcome
  a2 : AttemptOutcome
deriving DecidableEq, Repr

/-- Scripted answers of the BLE scanner for `_resolve_ble_device`: what
`find_device_by_address` returns and what `discover` returns. -/
structure ResolveEnv where
  findResult : Option BLEDeviceM
  scanResult : List BLEDeviceM
deriving DecidableEq, Repr

/-- How `establish_connection` fails when all its tries fail, mapped from
the exception types the source catches: `BleakOutOfConnectionSlotsError`,
`BleakDBusError`, `TimeoutError`, `OSError`, or any other exception. -/
inductive ConnectFailKind where
  | slots
  | dbus
  | timeout
  | oserror
  | other
deriving DecidableEq, Repr

/-- Scripted behaviour of `bleak_retry_connector.establish_connection`
with `max_attempts=3` (external collaborator, per the platform contract:
up to three internal tries, raising one of the caught exception kinds when
all fail): whether each try succeeds, and the exception kind raised when
none does. -/
structure EstablishScript where
  try1 : Bool
  try2 : Bool
  try3 : Bool
  failKind : ConnectFailKind
deriving DecidableEq, Repr

/-- Everything `_connect_client` consumes from the outside world. -/
structure ConnectEnv where
  resolve : ResolveEnv
  establish : EstablishScript
deriving DecidableEq, Repr

/-- Everything `_write_and_commit` consumes from the outside world:
the connect phase's script, the `client.is_connected` value checked right
after connecting, the write scripts of the command and commit
`_write_with_auth_retry` calls, and whether `client.disconnect()` raises. -/
structure WacEnv where
  connectE : ConnectEnv
  postConnected : Bool
  cmdScript : WriteScript
  commitScript : WriteScript
  disconnectRaises : Bool
deriving DecidableEq, Repr

/-- The message of the `APIConnectionError` raised when resolution finds
nothing. -/
def deviceNotFoundMsg : String := "Device not found! Failed connecting!"

/-- The case-insensitive address match of the fallback scan loop:
`(d.address or "").lower() == self.mac_address.lower()`. -/
def matchesAddress (mac : String) (d : BLEDeviceM) : Bool :=
  (d.address.getD "").toLower == mac.toLower

/-- The fallback scan loop of `_resolve_ble_device`: first device of the
scan result whose address matches, if any. -/
def scanLoop (mac : String) : List BLEDeviceM → Option BLEDeviceM
  | [] => none
  | d :: ds => if matchesAddress mac d then some d else scanLoop mac ds

/-- `SolemAPI._resolve_ble_device`: direct `find_device_by_address` lookup
first, returning immediately on a hit; otherwise one full `discover` scan
searched by `scanLoop`; otherwise `APIConnectionError`. -/
def resolveBleDevice (mac : String) (env : ResolveEnv) :
    Except PyErr BLEDeviceM × List Ev :=
  match env.findResult with
  | some d => (Except.ok d, [Ev.findCall])
  | none =>
    match scanLoop mac env.scanResult with
    | some d => (Except.ok d, [Ev.findCall, Ev.scanCall])
    | none => (Except.error (PyErr.apiConnectionError deviceNotFoundMsg),
        [Ev.findCall, Ev.scanCall])

/-- Scripted run of `establish_connection` (external): tries in order,
stopping at the first success; raises `failKind` when all three fail. -/
def establishConnection (s : EstablishScript) : Except ConnectFailKind Unit × List Ev :=
  if s.try1 then (Except.ok (), [Ev.connectTry 1])
  else if s.try2 then (Except.ok (), [Ev.connectTry 1, Ev.connectTry 2])
  else if s.try3 then (Except.ok (), [Ev.connectTry 1, Ev.connectTry 2, Ev.connectTry 3])
  else (Except.error s.failKind, [Ev.connectTry 1, Ev.connectTry 2, Ev.connectTry 3])

/-- The `except` clauses of `_connect_client`: which `APIConnectionError`
message each caught exception kind is rewrapped with. -/
def classifyConnectError : ConnectFailKind → String
  | ConnectFailKind.slots =>
      "Bluetooth adapter/proxy out of connection slots or device busy/unreachable"
  | ConnectFailKind.dbus => "Timeout connecting to device"
  | ConnectFailKind.timeout => "Timeout connecting to device"
  | ConnectFailKind.oserror => "Timeout connecting to device"
  | ConnectFailKind.other => "Unexpected BLE connection error"

/-- `SolemAPI._connect_client` (body inside the per-instance lock):
resolve the device, then `establish_connection`; every establishment
failure is rewrapped as `APIConnectionError` with the classified message;
a resolution failure propagates as raised. -/
def connectClient (mac : String) (env : ConnectEnv) : Except PyErr Unit × List Ev :=
  match resolveBleDevice mac env.resolve with
  | (Except.error e, tr) => (Except.error e, tr)
  | (Except.ok _, tr) =>
    match establishConnection env.establish with
    | (Except.ok _, etr) => (Except.ok (), tr ++ etr)
    | (Except.error k, etr) =>
        (Except.error (PyErr.apiConnectionError (classifyConnectError k)), tr ++ etr)

/-- One attempt of the `tenacity`-decorated `_write_with_auth_retry` body:
check `client.is_connected` (raising `APIConnectionError` before any GATT
write when false), then `write_gatt_char`. -/
def attemptOnce (a : AttemptOutcome) (payload : List ℕ) : Except PyErr Unit × List Ev :=
  match a with
  | AttemptOutcome.notConnected =>
      (Except.error (PyErr.apiConnectionError "Client not connected"), [Ev.authAttempt])
  | AttemptOutcome.writeFails =>
      (Except.error PyErr.bleakWriteError, [Ev.authAttempt, Ev.gattWrite payload false])
  | AttemptOutcome.writeOk =>
      (Except.ok (), [Ev.authAttempt, Ev.gattWrite payload true])

/-- `SolemAPI._write_with_auth_retry` under
`@retry(stop=stop_after_attempt(3), wait=wait_exponential(...))`:
`tenacity`'s default retries on any exception, so a failed attempt —
not-connected included — is attempted again up to three times in all, and
when the third fails the call raises `RetryError` around the last
attempt's exception. -/
def writeWithAuthRetry (s : WriteScript) (payload : List ℕ) :
    Except PyErr Unit × List Ev :=
  match attemptOnce s.a0 payload with
  | (Except.ok _, t0) => (Except.ok (), t0)
  | (Except.error _, t0) =>
    match attemptOnce s.a1 payload with
    | (Except.ok _, t1) => (Except.ok (), t0 ++ t1)
    | (Except.error _, t1) =>
      match attemptOnce s.a2 payload with
      | (Except.ok _, t2) => (Except.ok (), t0 ++ t1 ++ t2)
      | (Except.error e, t2) => (Except.error (PyErr.retryError e), t0 ++ t1 ++ t2)

/-- The `finally` block of `_write_and_commit` and `list_characteristics`:
`client.disconnect()` inside `try ... except Exception: pass`, so the call
happens exactly once and its own failure is discarded. -/
def bestEffortDisconnect (raises : Bool) : List Ev :=
  match (if raises then (Except.error PyErr.bleakDisconnectError, [Ev.disconnectTry])
    else (Except.ok (), [Ev.disconnectTry]) : Except PyErr Unit × List Ev) with
  | (_, tr) => tr

/-- `SolemAPI._write_and_commit`: connect, check `client.is_connected`,
write the command frame with `_write_with_auth_retry`, then write the
commit frame the same way; the `finally` block always disconnects
best-effort once a client exists. -/
def writeAndCommit (mac : String) (env : WacEnv) (command : List ℕ) :
    Except PyErr Unit × List Ev :=
  match connectClient mac env.connectE with
  | (Except.error e, tr) => (Except.error e, tr)
  | (Except.ok _, tr) =>
    let body : Except PyErr Unit × List Ev :=
      if env.postConnected = false then
        (Except.error (PyErr.apiConnectionError "Failed connecting!"), [])
      else
        match writeWithAuthRetry env.cmdScript command with
        | (Except.error e, wtr) => (Except.error e, wtr)
        | (Except.ok _, wtr) =>
          match writeWithAuthRetry env.commitScript commitFrame with
          | (Except.error e, ctr) => (Except.error e, wtr ++ ctr)
          | (Except.ok _, ctr) => (Except.ok (), wtr ++ ctr)
    (body.1, tr ++ body.2 ++ bestEffortDisconnect env.disconnectRaises)

/-- One characteristic's record as `list_characteristics` reports it. -/
structure CharM where
  uuid : String
  properties : List String
  descriptors : List String
deriving DecidableEq, Repr

/-- One GATT service as the client exposes it. -/
structure ServiceM where
  uuid : String
  characteristics : List CharM
deriving DecidableEq, Repr

/-- Everything `list_characteristics` consumes from the outside world:
the connect script, the post-connect `is_connected` value, the `services`
attribute (absent on some wrappers), the inner client's `get_services()`
fallback (absent when no inner accessor exists), and whether disconnect
raises. -/
structure ListCharsEnv where
  connectE : ConnectEnv
  postConnected : Bool
  services : Option (List ServiceM)
  innerServices : Option (List ServiceM)
  disconnectRaises : Bool
deriving DecidableEq, Repr

/-- The topology-building loop of `list_characteristics`: one entry per
service, keyed by its uuid, carrying the characteristic records in order. -/
def buildTopology (svcs : List ServiceM) : List (String × List CharM) :=
  svcs.map (fun svc => (svc.uuid, svc.characteristics))

/-- `SolemAPI.list_characteristics`: connect, check `is_connected`, read
`client.services` (falling back to the inner client's `get_services()`,
else raise), build the topology; the `finally` block always disconnects
best-effort once a client exists. -/
def listCharacteristics (mac : String) (env : ListCharsEnv) :
    Except PyErr (List (String × List CharM)) × List Ev :=
  match connectClient mac env.connectE with
  | (Except.error e, tr) => (Except.error e, tr)
  | (Except.ok _, tr) =>
    let body : Except PyErr (List (String × List CharM)) × List Ev :=
      if env.postConnected = false then
        (Except.error (PyErr.apiConnectionError "Failed connecting!"), [])
      else
        match env.services with
        | some svcs => (Except.ok (buildTopology svcs), [])
        | none =>
          match env.innerServices with
          | some svcs => (Except.ok (buildTopology svcs), [])
          | none =>
            (Except.error
              (PyErr.apiConnectionError "Services not available on this platform/client"), [])
    (body.1, tr ++ body.2 ++ bestEffortDisconnect env.disconnectRaises)

/-- Recognizer for `establish_connection` try events. -/
def isConnectTryEv : Ev → Bool
  | Ev.connectTry _ => true
  | _ => false

/-- Recognizer for GATT write events. -/
def isGattWriteEv : Ev → Bool
  | Ev.gattWrite _ _ => true
  | _ => false

/-! ## The per-instance connect lock as an interleaving system

`SolemAPI.__init__` creates one `asyncio.Lock` (`self._conn_lock`) and
`_connect_client` runs its whole resolve-plus-connect body inside
`async with self._conn_lock`.  Two concurrent `connect` callers on the
same instance are modelled as two tasks stepping through that protocol
under an arbitrary cooperative interleaving: acquire the lock when free,
resolve (which may raise), connect (which may succeed or fail), and in
every case leave the `async with` block, releasing the lock. -/

/-- Program counter of one caller: not yet inside the lock, resolving
(inside the critical section), connecting (inside the critical section),
or done (its attempt concluded with success or failure and the lock was
released on exit from the `async with`). -/
inductive TaskPc where
  | idle
  | resolving
  | connecting
  | finished
deriving DecidableEq, Repr

/-- Shared state of the two concurrent callers: who holds
`self._conn_lock`, and where each task is. -/
structure LockState where
  lockHolder : Option (Fin 2)
  pc : Fin 2 → TaskPc

/-- Both callers about to call `connect`; the lock is free. -/
def initState : LockState :=
  ⟨none, fun _ => TaskPc.idle⟩

/-- Whether a task is inside the resolve-plus-connect critical section. -/
def inCrit : TaskPc → Bool
  | TaskPc.resolving => true
  | TaskPc.connecting => true
  | _ => false

/-- One cooperative step of the two-caller system: a task acquires the
free lock and starts resolving; a resolving task moves on to connecting;
a resolving task raises (resolution failure) and leaves the `async with`,
releasing the lock; a connecting task concludes its attempt (success or
final failure) and leaves the `async with`, releasing the lock. -/
inductive ConnStep : LockState → LockState → Prop where
  | acquire (s : LockState) (i : Fin 2)
      (h1 : s.pc i = TaskPc.idle) (h2 : s.lockHolder = none) :
      ConnStep s ⟨some i, Function.update s.pc i TaskPc.resolving⟩
  | resolved (s : LockState) (i : Fin 2)
      (h1 : s.pc i = TaskPc.resolving) (h2 : s.lockHolder = some i) :
      ConnStep s ⟨some i, Function.update s.pc i TaskPc.connecting⟩
  | resolveRaised (s : LockState) (i : Fin 2)
      (h1 : s.pc i = TaskPc.resolving) (h2 : s.lockHolder = some i) :
      ConnStep s ⟨none, Function.update s.pc i TaskPc.finished⟩
  | attemptConcluded (s : LockState) (i : Fin 2)
      (h1 : s.pc i = TaskPc.connecting) (h2 : s.lockHolder = some i) :
      ConnStep s ⟨none, Function.update s.pc i TaskPc.finished⟩

/-- States the two-caller system can reach from `initState`. -/
inductive Reachable : LockState → Prop where
  | init : Reachable initState
  | step {s s' : LockState} : Reachable s → ConnStep s s' → Reachable s'

/-- The lock discipline invariant: a task is inside the critical section
exactly when it holds the lock. -/
def lockInv (s : LockState) : Prop :=
  (∀ i : Fin 2, inCrit (s.pc i) = true → s.lockHolder = some i) ∧
  (∀ i : Fin 2, s.lockHolder = some i → inCrit (s.pc i) = true)

/-! ## Concrete sample environments used by the witnesses -/

/-- A sample resolvable device. -/
def okDevice : BLEDeviceM := ⟨some "AA:BB:CC:DD:EE:FF"⟩

/-- A connect environment whose direct lookup succeeds and whose first
connection try succeeds. -/
def okConnectEnv : ConnectEnv :=
  ⟨⟨some okDevice, []⟩, ⟨true, false, false, ConnectFailKind.other⟩⟩

/-- A write script whose first attempt succeeds. -/
def okWriteScript : WriteScript :=
  ⟨AttemptOutcome.writeOk, AttemptOutcome.writeOk, AttemptOutcome.writeOk⟩

/-- A fully successful `_write_and_commit` environment. -/
def okWacEnv : WacEnv := ⟨okConnectEnv, true, okWriteScript, okWriteScript, false⟩

/-- A fully successful `list_characteristics` environment. -/
def okListEnv : ListCharsEnv := ⟨okConnectEnv, true, some [], none, false⟩

/-- The turn-on frame bytes, used as a sample command payload. -/
def sampleCommand : List ℕ := [0x31, 0x05, 0x12, 0xFF, 0x00, 0xFF, 0xFF]


/-! ## Helper lemmas about the scripted traces -/

/-- The best-effort disconnect emits exactly one disconnect event whether
or not `disconnect()` raises. -/
theorem bestEffortDisconnect_eq (b : Bool) :
    bestEffortDisconnect b = [Ev.disconnectTry] := by
  cases b <;> rfl

/-- Every event of one `_write_with_auth_retry` call is an attempt start
or a GATT write of that call's own payload. -/
theorem wwar_mem (s : WriteScript) (payload : List ℕ) :
    ∀ e ∈ (writeWithAuthRetry s payload).2,
      e = Ev.authAttempt ∨ ∃ ok, e = Ev.gattWrite payload ok := by
  obtain ⟨a0, a1, a2⟩ := s
  cases a0 <;> cases a1 <;> cases a2 <;>
    simp [writeWithAuthRetry, attemptOnce]

/-- A `_write_with_auth_retry` call that returns normally performed a
successful GATT write of its payload. -/
theorem wwar_ok_success (s : WriteScript) (payload : List ℕ)
    (h : (writeWithAuthRetry s payload).1 = Except.ok ()) :
    Ev.gattWrite payload true ∈ (writeWithAuthRetry s payload).2 := by
  obtain ⟨a0, a1, a2⟩ := s
  cases a0 <;> cases a1 <;> cases a2 <;>
    simp_all [writeWithAuthRetry, attemptOnce]

/-- Every event of `_connect_client` is a lookup, a scan, or a connection
try: the connect phase performs no writes and no disconnects. -/
theorem connect_mem (mac : String) (env : ConnectEnv) :
    ∀ e ∈ (connectClient mac env).2,
      e = Ev.findCall ∨ e = Ev.scanCall ∨ ∃ n, e = Ev.connectTry n := by
  obtain ⟨⟨f, l⟩, t1, t2, t3, k⟩ := env
  unfold connectClient resolveBleDevice establishConnection
  cases f <;> dsimp only
  · cases hs : scanLoop mac l <;> cases t1 <;> cases t2 <;> cases t3 <;> simp
  · cases t1 <;> cases t2 <;> cases t3 <;> simp

/-- The fallback scan loop is `List.find?` of the address match. -/
theorem scanLoop_eq_find (mac : String) (l : List BLEDeviceM) :
    scanLoop mac l = l.find? (matchesAddress mac) := by
  induction l with
  | nil => rfl
  | cons x xs ih =>
    rw [scanLoop, List.find?_cons]
    cases h : matchesAddress mac x <;> simp [h, ih]

/-- In a trace made of connect events, then events of a
`_write_with_auth_retry` of `command`, then the final disconnect, no GATT
write of a payload other than `command` occurs. -/
theorem trace_no_commit (A B : List Ev) (command p : List ℕ) (ok : Bool) (i : ℕ)
    (hA : ∀ e ∈ A, e = Ev.findCall ∨ e = Ev.scanCall ∨ ∃ n, e = Ev.connectTry n)
    (hB : ∀ e ∈ B, e = Ev.authAttempt ∨ ∃ o, e = Ev.gattWrite command o)
    (hi : (A ++ B ++ [Ev.disconnectTry])[i]? = some (Ev.gattWrite p ok))
    (hne : p ≠ command) : False := by
  have hmem := List.mem_iff_getElem?.2 ⟨i, hi⟩
  rcases List.mem_append.1 hmem with hm | hm
  · rcases List.mem_append.1 hm with hm2 | hm2
    · rcases hA _ hm2 with h | h | ⟨n, h⟩ <;> simp at h
    · rcases hB _ hm2 with h | ⟨o, h⟩
      · simp at h
      · cases h; exact hne rfl
  · simp at hm

/-- In a trace made of connect events, then the events of a successful
`_write_with_auth_retry` of `command`, then the events of a
`_write_with_auth_retry` of the commit frame, then the final disconnect:
any GATT write of a payload other than `command` is a write of the commit
frame, and it is preceded by a successful GATT write of `command`. -/
theorem trace_ordering (A B C : List Ev) (command p : List ℕ) (ok : Bool) (i : ℕ)
    (hA : ∀ e ∈ A, e = Ev.findCall ∨ e = Ev.scanCall ∨ ∃ n, e = Ev.connectTry n)
    (hB : ∀ e ∈ B, e = Ev.authAttempt ∨ ∃ o, e = Ev.gattWrite command o)
    (hC : ∀ e ∈ C, e = Ev.authAttempt ∨ ∃ o, e = Ev.gattWrite commitFrame o)
    (hwin : Ev.gattWrite command true ∈ B)
    (hi : (A ++ (B ++ C) ++ [Ev.disconnectTry])[i]? = some (Ev.gattWrite p ok))
    (hne : p ≠ command) :
    p = commitFrame ∧ ∃ j : ℕ, j < i ∧
      (A ++ (B ++ C) ++ [Ev.disconnectTry])[j]? = some (Ev.gattWrite command true) := by
  by_cases h1 : i < A.length
  · rw [List.getElem?_append_left (show i < (A ++ (B ++ C)).length by simp; omega),
      List.getElem?_append_left h1] at hi
    rcases hA _ (List.mem_iff_getElem?.2 ⟨i, hi⟩) with h | h | ⟨n, h⟩ <;> simp at h
  · push_neg at h1
    by_cases h2 : i < A.length + B.length
    · rw [List.getElem?_append_left (show i < (A ++ (B ++ C)).length by simp; omega),
        List.getElem?_append_right h1,
        List.getElem?_append_left (show i - A.length < B.length by omega)] at hi
      rcases hB _ (List.mem_iff_getElem?.2 ⟨_, hi⟩) with h | ⟨o, h⟩
      · simp at h
      · cases h; exact absurd rfl hne
    · push_neg at h2
      by_cases h3 : i < A.length + B.length + C.length
      · rw [List.getElem?_append_left (show i < (A ++ (B ++ C)).length by simp; omega),
          List.getElem?_append_right h1,
          List.getElem?_append_right (show B.length ≤ i - A.length by omega)] at hi
        rcases hC _ (List.mem_iff_getElem?.2 ⟨_, hi⟩) with h | ⟨o, h⟩
        · simp at h
        · cases h
          refine ⟨rfl, ?_⟩
          obtain ⟨j0, hj0⟩ := List.getElem?_of_mem hwin
          have hj0len : j0 < B.length := by
            by_contra hge
            push_neg at hge
            rw [List.getElem?_eq_none (by omega)] at hj0
            exact Option.noConfusion hj0
          refine ⟨A.length + j0, by omega, ?_⟩
          rw [List.getElem?_append_left (show A.length + j0 < (A ++ (B ++ C)).length by
              simp; omega),
            List.getElem?_append_right (show A.length ≤ A.length + j0 by omega),
            List.getElem?_append_left (show A.length + j0 - A.length < B.length by omega)]
          have hidx : A.length + j0 - A.length = j0 := by omega
          rw [hidx]
          exact hj0
      · push_neg at h3
        rw [List.getElem?_append_right (show (A ++ (B ++ C)).length ≤ i by simp; omega)] at hi
        have := List.mem_iff_getElem?.2 ⟨_, hi⟩
        simp at this

/-- C1 (amended): every control action's primary frame is exactly the
fixed-length big-endian sequence of the encoding table — the 2-byte
opcode-group marker `0x31 0x05`, the action byte (`0x12`, `0xC0`, `0x15`,
`0x22`, `0x23`, `0x21`, `0x24`), the clamped parameter bytes in the stated
positions and the stated trailer (`0xFF 0xFF`, or `0x00 0x00` for turn off
permanent) — with the proviso the counterexample forces: the
turn-off-for-N-days frame is produced only when the clamped day count fits
the one-byte field (at most 255); for clamped values 256–365 the encoder
raises `struct.error` and produces no frame.  Encoding is a pure,
deterministic Lean function, so same action and parameters always yield
the same bytes. -/
theorem c1_encoding_table :
    turn_on_command = some [0x31, 0x05, 0x12, 0xFF, 0x00, 0xFF, 0xFF] ∧
    turn_off_permanent_command = some [0x31, 0x05, 0xC0, 0x00, 0x00, 0x00, 0x00] ∧
    (∀ days : ℤ,
      turn_off_x_days_command days =
        if max 0 (min days 365) ≤ 255 then
          some [0x31, 0x05, 0x15, 0x00, (max 0 (min days 365)).toNat, 0xFF, 0xFF]
        else none) ∧
    (∀ station minutes : ℤ,
      sprinkle_station_x_for_y_minutes_command station minutes =
        some [0x31, 0x05, 0x22, (max 1 (min station 16)).toNat, 0x00,
          (max 1 (min minutes 240)).toNat, 0xFF, 0xFF]) ∧
    (∀ minutes : ℤ,
      sprinkle_all_stations_for_y_minutes_command minutes =
        some [0x31, 0x05, 0x23, 0x00, (max 1 (min minutes 240)).toNat, 0xFF, 0xFF]) ∧
    (∀ program : ℤ,
      run_program_x_command program =
        some [0x31, 0x05, 0x21, (max 1 (min program 3)).toNat, 0x00, 0xFF, 0xFF]) ∧
    stop_manual_sprinkle_command = some [0x31, 0x05, 0x24, 0x00, 0x00, 0xFF, 0xFF] := by
  refine ⟨by decide, by decide, ?_, ?_, ?_, ?_, by decide⟩
  · intro days
    unfold turn_off_x_days_command
    by_cases h : max 0 (min days 365) ≤ 255
    · have h2 : days ≤ 255 := by omega
      simp only [if_pos h, packFmt, packField]
      norm_num [h2]
      decide
    · have h2 : ¬ (days ≤ 255) := by omega
      simp only [if_neg h, packFmt, packField]
      rw [if_neg (by omega : ¬ ((0:ℤ) ≤ max 0 (min days 365) ∧ max 0 (min days 365) ≤ 255))]
      decide
  · intro station minutes
    unfold sprinkle_station_x_for_y_minutes_command
    simp only [packFmt, packField]
    rw [if_pos (show (0:ℤ) ≤ max 1 (min station 16) ∧ max 1 (min station 16) ≤ 255 by
          constructor <;> omega),
      if_pos (show (0:ℤ) ≤ max 1 (min minutes 240) ∧ max 1 (min minutes 240) ≤ 255 by
          constructor <;> omega)]
    norm_num
    decide
  · intro minutes
    unfold sprinkle_all_stations_for_y_minutes_command
    simp only [packFmt, packField]
    rw [if_pos (show (0:ℤ) ≤ max 1 (min minutes 240) ∧ max 1 (min minutes 240) ≤ 255 by
          constructor <;> omega)]
    norm_num
    decide
  · intro program
    unfold run_program_x_command
    simp only [packFmt, packField]
    rw [if_pos (show (0:ℤ) ≤ max 1 (min program 3) ∧ max 1 (min program 3) ≤ 255 by
          constructor <;> omega)]
    norm_num
    decide

/-- C1 counterexample: at `days = 300` the claim's encoding table calls for
a frame whose day byte carries the clamped value 300, but the source's
`struct.pack(">HBBBH", ...)` raises `struct.error` (the clamped value does
not fit the one-byte `B` field), so no primary frame is produced at all. -/
theorem c1_days_no_frame : turn_off_x_days_command 300 = none := by decide

/-- C2 (code bug, evaluated): the clamp `max(0, min(days, 365))` admits day
counts 256–365 that cannot be packed into the one-byte day field, so
`turn_off_x_days(1000)` — clamped to 365 — raises `struct.error` instead of
encoding day byte 365, while the remaining claimed clamp examples hold:
`days = -5` encodes day byte 0, `days = 255` still encodes, and
`sprinkle_station(99, 500)` / `sprinkle_station(0, 0)` encode
station/minute bytes 16/240 and 1/1. -/
theorem c2_clamp_evaluated :
    turn_off_x_days_command 1000 = none ∧
    turn_off_x_days_command 256 = none ∧
    turn_off_x_days_command (-5) = some [0x31, 0x05, 0x15, 0x00, 0, 0xFF, 0xFF] ∧
    turn_off_x_days_command 255 = some [0x31, 0x05, 0x15, 0x00, 255, 0xFF, 0xFF] ∧
    sprinkle_station_x_for_y_minutes_command 99 500 =
      some [0x31, 0x05, 0x22, 16, 0x00, 240, 0xFF, 0xFF] ∧
    sprinkle_station_x_for_y_minutes_command 0 0 =
      some [0x31, 0x05, 0x22, 1, 0x00, 1, 0xFF, 0xFF] ∧
    run_program_x_command 7 = some [0x31, 0x05, 0x21, 3, 0x00, 0xFF, 0xFF] := by
  decide

end Solem
namespace Solem

/-- C3: for every control action and every execution of the
write-and-commit sequence, the commit frame is exactly the constant
two-byte sequence `0x3B 0x00`, and within the execution trace any GATT
write of a payload other than the primary command is a write of that
commit frame occurring strictly after a successful GATT write of the
primary command — so the commit frame is written only after, and only if,
the primary write succeeds. -/
theorem c3_commit_frame_ordering (mac : String) (env : WacEnv) (command : List ℕ) :
    commitFrame = [0x3B, 0x00] ∧
    (∀ (i : ℕ) (p : List ℕ) (ok : Bool),
      (writeAndCommit mac env command).2[i]? = some (Ev.gattWrite p ok) →
      p ≠ command →
      p = commitFrame ∧
      ∃ j : ℕ, j < i ∧
        (writeAndCommit mac env command).2[j]? = some (Ev.gattWrite command true)) := by
  refine ⟨by decide, ?_⟩
  intro i p ok hi hne
  rcases hcc : connectClient mac env.connectE with ⟨res, ctr⟩
  have hctr := connect_mem mac env.connectE
  rw [hcc] at hctr
  cases res with
  | error e =>
    simp only [writeAndCommit, hcc] at hi
    rcases hctr _ (List.mem_iff_getElem?.2 ⟨i, hi⟩) with h | h | ⟨n, h⟩ <;> simp at h
  | ok u =>
    cases u
    rcases hb : env.postConnected with _ | _
    · simp only [writeAndCommit, hcc] at hi ⊢
      rw [if_pos hb, bestEffortDisconnect_eq] at hi
      exact (trace_no_commit ctr [] command p ok i hctr (by simp) hi hne).elim
    · have hb2 : ¬ (env.postConnected = false) := by simp [hb]
      rcases hw : writeWithAuthRetry env.cmdScript command with ⟨wres, wtr⟩
      have hwtr := wwar_mem env.cmdScript command
      rw [hw] at hwtr
      cases wres with
      | error e =>
        simp only [writeAndCommit, hcc] at hi
        rw [if_neg hb2] at hi
        simp only [hw, bestEffortDisconnect_eq] at hi
        exact (trace_no_commit ctr wtr command p ok i hctr hwtr hi hne).elim
      | ok u2 =>
        cases u2
        rcases hc : writeWithAuthRetry env.commitScript commitFrame with ⟨cres, ktr⟩
        have hktr := wwar_mem env.commitScript commitFrame
        rw [hc] at hktr
        have hwin : Ev.gattWrite command true ∈ wtr := by
          have h2 := wwar_ok_success env.cmdScript command (by rw [hw])
          rw [hw] at h2
          exact h2
        cases cres with
        | error e2 =>
          simp only [writeAndCommit, hcc] at hi ⊢
          rw [if_neg hb2] at hi ⊢
          simp only [hw, hc, bestEffortDisconnect_eq] at hi ⊢
          exact trace_ordering ctr wtr ktr command p ok i hctr hwtr hktr hwin hi hne
        | ok u3 =>
          cases u3
          simp only [writeAndCommit, hcc] at hi ⊢
          rw [if_neg hb2] at hi ⊢
          simp only [hw, hc, bestEffortDisconnect_eq] at hi ⊢
          exact trace_ordering ctr wtr ktr command p ok i hctr hwtr hktr hwin hi hne

/-- Witness for C3 at a fully successful concrete run: the commit frame
is `0x3B 0x00` and the commit write at trace index 5 is preceded by a
successful primary write. -/
theorem c3_commit_frame_ordering_witness :
    ([0x3B, 0x00] : List ℕ) = commitFrame ∧
    ∃ j : ℕ, j < 5 ∧
      (writeAndCommit "AA:BB:CC:DD:EE:FF" okWacEnv sampleCommand).2[j]? =
        some (Ev.gattWrite sampleCommand true) :=
  (c3_commit_frame_ordering "AA:BB:CC:DD:EE:FF" okWacEnv sampleCommand).2 5 [0x3B, 0x00] true
    (by decide) (by decide)

/-- C4 counterexample: with the handle persistently reporting not
connected, `_write_with_auth_retry` records three `tenacity` attempts (not
zero retries) and the caller receives `RetryError` wrapping the
`APIConnectionError`, not the `APIConnectionError` itself — the
not-connected check sits inside the retried function, so `tenacity`'s
default policy retries it like any other failure. -/
theorem c4_not_connected_is_retried :
    ((writeWithAuthRetry
        ⟨AttemptOutcome.notConnected, AttemptOutcome.notConnected, AttemptOutcome.notConnected⟩
        [0x31, 0x05, 0x12, 0xFF, 0x00, 0xFF, 0xFF]).2.count Ev.authAttempt = 3) ∧
    (writeWithAuthRetry
        ⟨AttemptOutcome.notConnected, AttemptOutcome.notConnected, AttemptOutcome.notConnected⟩
        [0x31, 0x05, 0x12, 0xFF, 0x00, 0xFF, 0xFF]).1 =
      Except.error (PyErr.retryError (PyErr.apiConnectionError "Client not connected")) := by
  exact ⟨rfl, rfl⟩

/-- C4 (amended): if `is_connected` is false at write time, every one of
the three retry attempts raises `ConnectionError` before issuing any GATT
write (no bytes reach the wire), and after the third attempt the call
fails with `tenacity`'s `RetryError` wrapping that `ConnectionError`; the
3-attempt exponential-backoff retry applies to these not-connected
failures exactly as to failed writes. -/
theorem c4_retry_wraps_not_connected (payload : List ℕ) :
    (writeWithAuthRetry
        ⟨AttemptOutcome.notConnected, AttemptOutcome.notConnected, AttemptOutcome.notConnected⟩
        payload).1 =
      Except.error (PyErr.retryError (PyErr.apiConnectionError "Client not connected")) ∧
    (writeWithAuthRetry
        ⟨AttemptOutcome.notConnected, AttemptOutcome.notConnected, AttemptOutcome.notConnected⟩
        payload).2 = [Ev.authAttempt, Ev.authAttempt, Ev.authAttempt] ∧
    ((writeWithAuthRetry
        ⟨AttemptOutcome.notConnected, AttemptOutcome.notConnected, AttemptOutcome.notConnected⟩
        payload).2.countP isGattWriteEv = 0) := by
  exact ⟨rfl, rfl, rfl⟩

/-- C5: device resolution first attempts the direct address lookup and,
on a hit, returns it immediately with no fallback scan event in the
trace; otherwise it performs one full discovery scan and returns the
first device matching the configured address case-insensitively
(`List.find?` of the match), failing with the device-not-found
`ConnectionError` when no device matches. -/
theorem c5_resolution_order (mac : String) (d : BLEDeviceM) (l : List BLEDeviceM) :
    resolveBleDevice mac ⟨some d, l⟩ = (Except.ok d, [Ev.findCall]) ∧
    resolveBleDevice mac ⟨none, l⟩ =
      (match l.find? (matchesAddress mac) with
        | some d2 => Except.ok d2
        | none => Except.error (PyErr.apiConnectionError deviceNotFoundMsg),
       [Ev.findCall, Ev.scanCall]) := by
  constructor
  · rfl
  · unfold resolveBleDevice
    dsimp only
    rw [scanLoop_eq_find]
    cases h : l.find? (matchesAddress mac) <;> simp

/-- C6 (amended): each `_connect_client` call performs exactly one device
resolution — one direct lookup and at most one fallback scan, with no
connection try among the resolution events — before the up-to-three
connection tries of `establish_connection`, which all reuse that single
resolved device; the resolver itself performs no retries. -/
theorem c6_single_resolution_per_call (mac : String) (env : ConnectEnv) :
    ∃ rtr etr : List Ev,
      (connectClient mac env).2 = rtr ++ etr ∧
      rtr.count Ev.findCall = 1 ∧
      rtr.count Ev.scanCall ≤ 1 ∧
      rtr.countP isConnectTryEv = 0 ∧
      etr.count Ev.findCall = 0 ∧
      etr.count Ev.scanCall = 0 ∧
      etr.countP isConnectTryEv ≤ 3 := by
  obtain ⟨⟨f, l⟩, t1, t2, t3, k⟩ := env
  unfold connectClient resolveBleDevice establishConnection
  cases f <;> dsimp only
  · cases hs : scanLoop mac l <;> cases t1 <;> cases t2 <;> cases t3 <;>
      first
        | exact ⟨[Ev.findCall, Ev.scanCall], [], rfl, by decide, by decide, by decide,
            by decide, by decide, by decide⟩
        | exact ⟨[Ev.findCall, Ev.scanCall], [Ev.connectTry 1], rfl, by decide, by decide,
            by decide, by decide, by decide, by decide⟩
        | exact ⟨[Ev.findCall, Ev.scanCall], [Ev.connectTry 1, Ev.connectTry 2], rfl,
            by decide, by decide, by decide, by decide, by decide, by decide⟩
        | exact ⟨[Ev.findCall, Ev.scanCall], [Ev.connectTry 1, Ev.connectTry 2,
            Ev.connectTry 3], rfl, by decide, by decide, by decide, by decide, by decide,
            by decide⟩
  · cases t1 <;> cases t2 <;> cases t3 <;>
      first
        | exact ⟨[Ev.findCall], [Ev.connectTry 1], rfl, by decide, by decide, by decide,
            by decide, by decide, by decide⟩
        | exact ⟨[Ev.findCall], [Ev.connectTry 1, Ev.connectTry 2], rfl, by decide,
            by decide, by decide, by decide, by decide, by decide⟩
        | exact ⟨[Ev.findCall], [Ev.connectTry 1, Ev.connectTry 2, Ev.connectTry 3], rfl,
            by decide, by decide, by decide, by decide, by decide, by decide⟩

/-- C6 counterexample: a connect call whose connection succeeds only on
the third try still performs exactly one resolution (one
`find_device_by_address` call) for its three connection tries, refuting
the claim that a fresh resolution precedes every one of the up-to-3
tries. -/
theorem c6_one_resolution_three_tries :
    (connectClient "AA:BB:CC:DD:EE:FF"
        ⟨⟨some okDevice, []⟩, ⟨false, false, true, ConnectFailKind.other⟩⟩).2 =
      [Ev.findCall, Ev.connectTry 1, Ev.connectTry 2, Ev.connectTry 3] ∧
    ((connectClient "AA:BB:CC:DD:EE:FF"
        ⟨⟨some okDevice, []⟩, ⟨false, false, true, ConnectFailKind.other⟩⟩).2.count
        Ev.findCall = 1) ∧
    ((connectClient "AA:BB:CC:DD:EE:FF"
        ⟨⟨some okDevice, []⟩, ⟨false, false, true, ConnectFailKind.other⟩⟩).2.countP
        isConnectTryEv = 3) := by
  exact ⟨rfl, rfl, rfl⟩


/-- When the connect phase succeeds, the `_write_and_commit` trace is the
connect events, then the body's write events, then exactly one final
disconnect event. -/
theorem wac_trace_shape (mac : String) (env : WacEnv) (command : List ℕ)
    (h : (connectClient mac env.connectE).1 = Except.ok ()) :
    ∃ ctr btr : List Ev,
      (writeAndCommit mac env command).2 = ctr ++ btr ++ [Ev.disconnectTry] ∧
      Ev.disconnectTry ∉ ctr ∧ Ev.disconnectTry ∉ btr := by
  rcases hcc : connectClient mac env.connectE with ⟨res, ctr⟩
  have hctr := connect_mem mac env.connectE
  rw [hcc] at hctr
  have hnd : Ev.disconnectTry ∉ ctr := by
    intro hmem
    rcases hctr _ hmem with h | h | ⟨n, h⟩ <;> simp at h
  rw [hcc] at h
  cases res with
  | error e => exact absurd h (by simp)
  | ok u =>
    cases u
    rcases hb : env.postConnected with _ | _
    · refine ⟨ctr, [], ?_, hnd, by simp⟩
      simp only [writeAndCommit, hcc]
      rw [if_pos hb, bestEffortDisconnect_eq]
    · have hb2 : ¬ (env.postConnected = false) := by simp [hb]
      rcases hw : writeWithAuthRetry env.cmdScript command with ⟨wres, wtr⟩
      have hwtr := wwar_mem env.cmdScript command
      rw [hw] at hwtr
      have hndw : Ev.disconnectTry ∉ wtr := by
        intro hmem
        rcases hwtr _ hmem with h | ⟨o, h⟩ <;> simp at h
      cases wres with
      | error e =>
        refine ⟨ctr, wtr, ?_, hnd, hndw⟩
        simp only [writeAndCommit, hcc]
        rw [if_neg hb2]
        simp only [hw, bestEffortDisconnect_eq]
      | ok u2 =>
        cases u2
        rcases hc : writeWithAuthRetry env.commitScript commitFrame with ⟨cres, ktr⟩
        have hktr := wwar_mem env.commitScript commitFrame
        rw [hc] at hktr
        have hndk : Ev.disconnectTry ∉ ktr := by
          intro hmem
          rcases hktr _ hmem with h | ⟨o, h⟩ <;> simp at h
        have hndwk : Ev.disconnectTry ∉ wtr ++ ktr := by
          intro hmem
          rcases List.mem_append.1 hmem with hm | hm
          · exact hndw hm
          · exact hndk hm
        cases cres with
        | error e2 =>
          refine ⟨ctr, wtr ++ ktr, ?_, hnd, hndwk⟩
          simp only [writeAndCommit, hcc]
          rw [if_neg hb2]
          simp only [hw, hc, bestEffortDisconnect_eq]
        | ok u3 =>
          cases u3
          refine ⟨ctr, wtr ++ ktr, ?_, hnd, hndwk⟩
          simp only [writeAndCommit, hcc]
          rw [if_neg hb2]
          simp only [hw, hc, bestEffortDisconnect_eq]

/-- When the connect phase succeeds, the `list_characteristics` trace is
the connect events followed by exactly one final disconnect event. -/
theorem lc_trace_shape (mac : String) (env : ListCharsEnv)
    (h : (connectClient mac env.connectE).1 = Except.ok ()) :
    ∃ ctr : List Ev,
      (listCharacteristics mac env).2 = ctr ++ [] ++ [Ev.disconnectTry] ∧
      Ev.disconnectTry ∉ ctr := by
  rcases hcc : connectClient mac env.connectE with ⟨res, ctr⟩
  have hctr := connect_mem mac env.connectE
  rw [hcc] at hctr
  have hnd : Ev.disconnectTry ∉ ctr := by
    intro hmem
    rcases hctr _ hmem with h | h | ⟨n, h⟩ <;> simp at h
  rw [hcc] at h
  cases res with
  | error e => exact absurd h (by simp)
  | ok u =>
    cases u
    refine ⟨ctr, ?_, hnd⟩
    rcases hb : env.postConnected with _ | _
    · simp only [listCharacteristics, hcc]
      rw [if_pos hb, bestEffortDisconnect_eq]
    · have hb2 : ¬ (env.postConnected = false) := by simp [hb]
      simp only [listCharacteristics, hcc]
      rw [if_neg hb2]
      cases hsv : env.services with
      | some svcs => simp only [bestEffortDisconnect_eq]
      | none =>
        cases hin : env.innerServices with
        | some svcs => simp only [bestEffortDisconnect_eq]
        | none => simp only [bestEffortDisconnect_eq]

/-- The result of `_write_and_commit` does not depend on whether the
best-effort disconnect raises. -/
theorem wac_result_ignores_disconnect (mac : String) (c : ConnectEnv) (post : Bool)
    (s1 s2 : WriteScript) (b1 b2 : Bool) (command : List ℕ) :
    (writeAndCommit mac ⟨c, post, s1, s2, b1⟩ command).1 =
      (writeAndCommit mac ⟨c, post, s1, s2, b2⟩ command).1 := by
  unfold writeAndCommit
  rcases hcc : connectClient mac c with ⟨res, ctr⟩
  cases res <;> simp only [hcc]

/-- The result of `list_characteristics` does not depend on whether the
best-effort disconnect raises. -/
theorem lc_result_ignores_disconnect (mac : String) (c : ConnectEnv) (post : Bool)
    (sv iv : Option (List ServiceM)) (b1 b2 : Bool) :
    (listCharacteristics mac ⟨c, post, sv, iv, b1⟩).1 =
      (listCharacteristics mac ⟨c, post, sv, iv, b2⟩).1 := by
  unfold listCharacteristics
  rcases hcc : connectClient mac c with ⟨res, ctr⟩
  cases res <;> simp only [hcc]

/-- C7: on every exit path of a write-and-commit call and of the
diagnostics topology call that reaches the write phase (normal success,
write failure, or raised exception), disconnect is attempted exactly once
as the final event of the trace, and an error raised by disconnect itself
is discarded: the call's result is the same whether or not disconnect
raises. -/
theorem c7_disconnect_exactly_once (mac : String) (env : WacEnv) (lenv : ListCharsEnv)
    (command : List ℕ)
    (h1 : (connectClient mac env.connectE).1 = Except.ok ())
    (h2 : (connectClient mac lenv.connectE).1 = Except.ok ()) :
    ((writeAndCommit mac env command).2.count Ev.disconnectTry = 1) ∧
    ((writeAndCommit mac env command).2.getLast? = some Ev.disconnectTry) ∧
    (∀ b1 b2 : Bool,
      (writeAndCommit mac
          ⟨env.connectE, env.postConnected, env.cmdScript, env.commitScript, b1⟩ command).1 =
        (writeAndCommit mac
          ⟨env.connectE, env.postConnected, env.cmdScript, env.commitScript, b2⟩ command).1) ∧
    ((listCharacteristics mac lenv).2.count Ev.disconnectTry = 1) ∧
    ((listCharacteristics mac lenv).2.getLast? = some Ev.disconnectTry) ∧
    (∀ b1 b2 : Bool,
      (listCharacteristics mac
          ⟨lenv.connectE, lenv.postConnected, lenv.services, lenv.innerServices, b1⟩).1 =
        (listCharacteristics mac
          ⟨lenv.connectE, lenv.postConnected, lenv.services, lenv.innerServices, b2⟩).1) := by
  obtain ⟨ctr, btr, htr, hn1, hn2⟩ := wac_trace_shape mac env command h1
  obtain ⟨ctr2, htr2, hn3⟩ := lc_trace_shape mac lenv h2
  refine ⟨?_, ?_, ?_, ?_, ?_, ?_⟩
  · rw [htr]
    rw [List.count_append, List.count_append,
      List.count_eq_zero.2 hn1, List.count_eq_zero.2 hn2]
    decide
  · rw [htr, List.getLast?_concat]
  · intro b1 b2
    exact wac_result_ignores_disconnect mac env.connectE env.postConnected env.cmdScript
      env.commitScript b1 b2 command
  · rw [htr2]
    rw [List.count_append, List.count_append,
      List.count_eq_zero.2 hn3]
    decide
  · rw [htr2, List.getLast?_concat]
  · intro b1 b2
    exact lc_result_ignores_disconnect mac lenv.connectE lenv.postConnected lenv.services
      lenv.innerServices b1 b2

/-- C8: every failure of connection establishment is surfaced as the
single `APIConnectionError` class with the message determined by the
failure kind — slot exhaustion or device busy yields the adapter/slot
exhaustion message, `BleakDBusError`/timeout/OS error yield the
timeout-connecting message, and any other exception yields the
unexpected-connection-error message — and when connect fails this way the
write-and-commit call propagates that same error with no GATT write and
no write attempt in its trace. -/
theorem c8_connect_failure_classification (mac : String) (d : BLEDeviceM)
    (l : List BLEDeviceM) (k : ConnectFailKind) (post : Bool) (s1 s2 : WriteScript)
    (b : Bool) (command : List ℕ) :
    connectClient mac ⟨⟨some d, l⟩, ⟨false, false, false, k⟩⟩ =
      (Except.error (PyErr.apiConnectionError (classifyConnectError k)),
       [Ev.findCall, Ev.connectTry 1, Ev.connectTry 2, Ev.connectTry 3]) ∧
    classifyConnectError ConnectFailKind.slots =
      "Bluetooth adapter/proxy out of connection slots or device busy/unreachable" ∧
    classifyConnectError ConnectFailKind.dbus = "Timeout connecting to device" ∧
    classifyConnectError ConnectFailKind.timeout = "Timeout connecting to device" ∧
    classifyConnectError ConnectFailKind.oserror = "Timeout connecting to device" ∧
    classifyConnectError ConnectFailKind.other = "Unexpected BLE connection error" ∧
    (writeAndCommit mac ⟨⟨⟨some d, l⟩, ⟨false, false, false, k⟩⟩, post, s1, s2, b⟩
        command).1 =
      Except.error (PyErr.apiConnectionError (classifyConnectError k)) ∧
    ((writeAndCommit mac ⟨⟨⟨some d, l⟩, ⟨false, false, false, k⟩⟩, post, s1, s2, b⟩
        command).2.countP isGattWriteEv = 0) ∧
    ((writeAndCommit mac ⟨⟨⟨some d, l⟩, ⟨false, false, false, k⟩⟩, post, s1, s2, b⟩
        command).2.count Ev.authAttempt = 0) := by
  exact ⟨rfl, rfl, rfl, rfl, rfl, rfl, rfl, rfl, rfl⟩


end Solem
namespace Solem

/-- Lowercasing the empty string yields the empty string. -/
theorem toLower_empty : ("" : String).toLower = "" := by
  show String.map Char.toLower "" = ""
  rw [String.map_eq]
  rfl

/-- Lowercasing yields the empty string only for the empty string. -/
theorem toLower_eq_empty_iff (s : String) : s.toLower = "" ↔ s = "" := by
  constructor
  · intro h
    have hd : (String.map Char.toLower s).data = ("" : String).data := by
      rw [show s.toLower = String.map Char.toLower s from rfl] at h
      rw [h]
    rw [String.map_eq] at hd
    exact String.ext (List.map_eq_nil_iff.1 hd)
  · rintro rfl
    exact toLower_empty

/-- The initial two-caller state satisfies the lock invariant. -/
theorem lockInv_init : lockInv initState := by
  constructor <;> intro i <;> simp [initState, inCrit]

/-- Every step of the two-caller system preserves the lock invariant. -/
theorem lockInv_step {s s' : LockState} (hs : lockInv s) (st : ConnStep s s') :
    lockInv s' := by
  obtain ⟨h1, h2⟩ := hs
  cases st with
  | acquire i hi hl =>
    constructor
    · intro j hj
      by_cases hij : j = i
      · subst hij; rfl
      · rw [show (⟨some i, Function.update s.pc i TaskPc.resolving⟩ : LockState).pc j
            = s.pc j from Function.update_noteq hij _ _] at hj
        have hsome := h1 j hj
        rw [hl] at hsome
        exact Option.noConfusion hsome
    · intro j hj
      have hij : i = j := Option.some.inj hj
      subst hij
      show inCrit (Function.update s.pc i TaskPc.resolving i) = true
      rw [Function.update_same]
      rfl
  | resolved i hi hl =>
    constructor
    · intro j hj
      by_cases hij : j = i
      · subst hij; rfl
      · rw [show (⟨some i, Function.update s.pc i TaskPc.connecting⟩ : LockState).pc j
            = s.pc j from Function.update_noteq hij _ _] at hj
        have hsome := h1 j hj
        rw [hl] at hsome
        have he := Option.some.inj hsome
        exact absurd he.symm hij
    · intro j hj
      have hij : i = j := Option.some.inj hj
      subst hij
      show inCrit (Function.update s.pc i TaskPc.connecting i) = true
      rw [Function.update_same]
      rfl
  | resolveRaised i hi hl =>
    constructor
    · intro j hj
      by_cases hij : j = i
      · subst hij
        rw [show (⟨none, Function.update s.pc j TaskPc.finished⟩ : LockState).pc j
            = TaskPc.finished from Function.update_same _ _ _] at hj
        exact absurd hj (by decide)
      · rw [show (⟨none, Function.update s.pc i TaskPc.finished⟩ : LockState).pc j
            = s.pc j from Function.update_noteq hij _ _] at hj
        have hsome := h1 j hj
        rw [hl] at hsome
        have he := Option.some.inj hsome
        exact absurd he.symm hij
    · intro j hj
      exact Option.noConfusion hj
  | attemptConcluded i hi hl =>
    constructor
    · intro j hj
      by_cases hij : j = i
      · subst hij
        rw [show (⟨none, Function.update s.pc j TaskPc.finished⟩ : LockState).pc j
            = TaskPc.finished from Function.update_same _ _ _] at hj
        exact absurd hj (by decide)
      · rw [show (⟨none, Function.update s.pc i TaskPc.finished⟩ : LockState).pc j
            = s.pc j from Function.update_noteq hij _ _] at hj
        have hsome := h1 j hj
        rw [hl] at hsome
        have he := Option.some.inj hsome
        exact absurd he.symm hij
    · intro j hj
      exact Option.noConfusion hj

/-- Every reachable state of the two-caller system satisfies the lock
invariant. -/
theorem reachable_lockInv {s : LockState} (h : Reachable s) : lockInv s := by
  induction h with
  | init => exact lockInv_init
  | step hr hst ih => exact lockInv_step ih hst

/-- C9: in every reachable state of two concurrent `connect` callers on
one API instance, at most one caller is inside the resolve-plus-connect
critical section (their critical sections never overlap), and whenever
some caller is not yet finished a step is enabled — the lock is released
after every attempt, success or failure, so a queued caller always
proceeds. -/
theorem c9_connect_lock_serializes (s : LockState) (h : Reachable s) :
    ((inCrit (s.pc 0) && inCrit (s.pc 1)) = false) ∧
    ((s.pc 0 = TaskPc.finished ∧ s.pc 1 = TaskPc.finished) ∨ ∃ s', ConnStep s s') := by
  obtain ⟨h1, h2⟩ := reachable_lockInv h
  constructor
  · cases hc0 : inCrit (s.pc 0)
    · simp
    · cases hc1 : inCrit (s.pc 1)
      · simp
      · exfalso
        have e0 := h1 0 hc0
        have e1 := h1 1 hc1
        rw [e0] at e1
        have e2 := Option.some.inj e1
        exact absurd e2 (by decide)
  · rcases hl : s.lockHolder with _ | i
    · by_cases hf : s.pc 0 = TaskPc.finished ∧ s.pc 1 = TaskPc.finished
      · exact Or.inl hf
      · right
        have key : ∀ j : Fin 2, s.pc j ≠ TaskPc.finished → s.pc j = TaskPc.idle := by
          intro j hj
          cases hpc : s.pc j
          · rfl
          · have hsome := h1 j (by rw [hpc]; rfl)
            rw [hl] at hsome
            exact Option.noConfusion hsome
          · have hsome := h1 j (by rw [hpc]; rfl)
            rw [hl] at hsome
            exact Option.noConfusion hsome
          · exact absurd hpc hj
        by_cases h0 : s.pc 0 = TaskPc.finished
        · have hone : s.pc 1 ≠ TaskPc.finished := fun hx => hf ⟨h0, hx⟩
          exact ⟨_, ConnStep.acquire s 1 (key 1 hone) hl⟩
        · exact ⟨_, ConnStep.acquire s 0 (key 0 h0) hl⟩
    · right
      have hc := h2 i hl
      cases hpc : s.pc i
      · rw [hpc] at hc; exact absurd hc (by decide)
      · exact ⟨_, ConnStep.resolved s i hpc hl⟩
      · exact ⟨_, ConnStep.attemptConcluded s i hpc hl⟩
      · rw [hpc] at hc; exact absurd hc (by decide)

/-- Witness for C9 at the initial state, reachable by construction. -/
theorem c9_connect_lock_serializes_witness :
    ((inCrit (initState.pc 0) && inCrit (initState.pc 1)) = false) ∧
    ((initState.pc 0 = TaskPc.finished ∧ initState.pc 1 = TaskPc.finished) ∨
      ∃ s', ConnStep initState s') :=
  c9_connect_lock_serializes initState Reachable.init

/-- C10 (amended): the fallback scan substitutes the empty string for a
missing address, so the case-insensitive comparison is total and never
raises, and a discovered device whose address is absent compares as
lowercased-empty-string against the lowercased configured address: it is
a non-match (skipped by the scan loop) whenever the configured address is
nonempty, and resolution over any scan result list yields either a device
or the device-not-found error. -/
theorem c10_missing_address_nonmatch (mac : String) (l : List BLEDeviceM)
    (env : ResolveEnv) :
    (matchesAddress mac ⟨none⟩ = (("" : String).toLower == mac.toLower)) ∧
    (mac ≠ "" → scanLoop mac (⟨none⟩ :: l) = scanLoop mac l) ∧
    ((∃ d, (resolveBleDevice mac env).1 = Except.ok d) ∨
      (resolveBleDevice mac env).1 =
        Except.error (PyErr.apiConnectionError deviceNotFoundMsg)) := by
  refine ⟨rfl, ?_, ?_⟩
  · intro h
    rw [scanLoop]
    have hm : matchesAddress mac ⟨none⟩ = false := by
      show (("" : String).toLower == mac.toLower) = false
      rw [toLower_empty]
      exact beq_eq_false_iff_ne.2
        (fun e => h ((toLower_eq_empty_iff mac).1 e.symm))
    rw [hm]
    simp
  · obtain ⟨f, sl⟩ := env
    unfold resolveBleDevice
    cases f <;> dsimp only
    · cases hs : scanLoop mac sl <;> simp
    · simp

/-- C10 counterexample: with an empty configured address, a discovered
device whose address is absent is treated as a match — the empty-string
substitution makes both sides of the comparison empty — and resolution
returns that address-less device instead of treating it as a non-match. -/
theorem c10_empty_mac_matches_missing_address :
    matchesAddress "" ⟨none⟩ = true ∧
    resolveBleDevice "" ⟨none, [⟨none⟩]⟩ =
      (Except.ok ⟨none⟩, [Ev.findCall, Ev.scanCall]) := by
  have hm : matchesAddress "" (⟨none⟩ : BLEDeviceM) = true := by
    show (("" : String).toLower == ("" : String).toLower) = true
    exact beq_self_eq_true _
  have hsl : scanLoop "" [(⟨none⟩ : BLEDeviceM)] = some ⟨none⟩ := by
    rw [scanLoop, if_pos hm]
  refine ⟨hm, ?_⟩
  unfold resolveBleDevice
  dsimp only
  rw [hsl]


/-- Witness for C7 at concrete successful environments for both the
write-and-commit call and the diagnostics call. -/
theorem c7_disconnect_exactly_once_witness :
    ((writeAndCommit "AA:BB:CC:DD:EE:FF" okWacEnv sampleCommand).2.count
        Ev.disconnectTry = 1) ∧
    ((writeAndCommit "AA:BB:CC:DD:EE:FF" okWacEnv sampleCommand).2.getLast? =
        some Ev.disconnectTry) ∧
    (∀ b1 b2 : Bool,
      (writeAndCommit "AA:BB:CC:DD:EE:FF"
          ⟨okWacEnv.connectE, okWacEnv.postConnected, okWacEnv.cmdScript,
            okWacEnv.commitScript, b1⟩ sampleCommand).1 =
        (writeAndCommit "AA:BB:CC:DD:EE:FF"
          ⟨okWacEnv.connectE, okWacEnv.postConnected, okWacEnv.cmdScript,
            okWacEnv.commitScript, b2⟩ sampleCommand).1) ∧
    ((listCharacteristics "AA:BB:CC:DD:EE:FF" okListEnv).2.count Ev.disconnectTry = 1) ∧
    ((listCharacteristics "AA:BB:CC:DD:EE:FF" okListEnv).2.getLast? =
        some Ev.disconnectTry) ∧
    (∀ b1 b2 : Bool,
      (listCharacteristics "AA:BB:CC:DD:EE:FF"
          ⟨okListEnv.connectE, okListEnv.postConnected, okListEnv.services,
            okListEnv.innerServices, b1⟩).1 =
        (listCharacteristics "AA:BB:CC:DD:EE:FF"
          ⟨okListEnv.connectE, okListEnv.postConnected, okListEnv.services,
            okListEnv.innerServices, b2⟩).1) :=
  c7_disconnect_exactly_once "AA:BB:CC:DD:EE:FF" okWacEnv okListEnv sampleCommand rfl rfl

end Solem
